import Mathlib

/-!
Shallow embedding of the scheduled fan-out delivery engine of the
newsletter service: the content/subscriber/subscription/email-log data
model (src/models/schema.ts), the scheduler loop body
(src/services/schedulerService.ts, processPendingContent), the
send-newsletter queue handler (src/services/queueProcessor.ts), the Bull
retry loop as configured (src/config/queue.ts), and the in-process
RateLimiter's unsynchronized read-then-write, modelled as an interleaving
of timestamped reads and writes of the shared lastEmailTime field.
-/

/-- Content.status values of the content_status enum in src/models/schema.ts. -/
inductive ContentStatus
  | pending
  | processing
  | sent
deriving DecidableEq, Repr

/-- email_logs.status values of the email_status enum in src/models/schema.ts. -/
inductive EmailStatus
  | pending
  | sent
  | failed
deriving DecidableEq, Repr

/-- A row of the content table (timestamps as epoch milliseconds). -/
structure ContentRow where
  id : Nat
  topicId : Nat
  title : Option String
  body : String
  scheduledTime : Nat
  isSent : Bool
  status : ContentStatus
  sentAt : Option Nat
deriving DecidableEq, Repr

/-- A row of the email_logs table, keyed by (content_id, subscriber_id). -/
structure EmailLogRow where
  contentId : Nat
  subscriberId : Nat
  status : EmailStatus
  messageId : Option String
  errorMessage : Option String
  sentAt : Option Nat
deriving DecidableEq, Repr

/-- A row of the subscribers table. -/
structure SubscriberRow where
  id : Nat
  email : String
  isActive : Bool
deriving DecidableEq, Repr

/-- A row of the subscriptions table (many-to-many subscriber/topic). -/
structure SubscriptionRow where
  subscriberId : Nat
  topicId : Nat
deriving DecidableEq, Repr

/-- The database state: the four tables the delivery engine touches, each
as a list of rows in table enumeration order. -/
structure DB where
  contents : List ContentRow
  subscribers : List SubscriberRow
  subscriptions : List SubscriptionRow
  emailLogs : List EmailLogRow
deriving DecidableEq, Repr

/-- The where-clause of the scheduler discovery query in
processPendingContent: scheduled_time <= now, is_sent = false,
status = pending. -/
def isDue (now : Nat) (c : ContentRow) : Bool :=
  decide (c.scheduledTime ≤ now) && (c.isSent == false) && (c.status == ContentStatus.pending)

/-- The discovery query of processPendingContent: filter and limit 10.
The source query has no orderBy clause, so rows come back in whatever
order the store enumerates them (here: table order). -/
def findDueContent (db : DB) (now : Nat) : List ContentRow :=
  (db.contents.filter (isDue now)).take 10

/-- The set-clause of the scheduler claim update: status := processing. -/
def setProcessing (c : ContentRow) : ContentRow :=
  { c with status := ContentStatus.processing }

/-- The scheduler claim update
db.update(content).set(status processing).where(eq(content.id, cid)).returning():
the where-clause matches rows by id alone, with no condition on the
current status; returns the updated database and the returned rows. -/
def claimUpdate (db : DB) (cid : Nat) : DB × List ContentRow :=
  ({ db with contents := db.contents.map (fun c => if c.id == cid then setProcessing c else c) },
   (db.contents.filter (fun c => c.id == cid)).map setProcessing)

/-- The set-clause of the finalize update: is_sent := true,
status := sent, sent_at := now. -/
def finalizeSet (now : Nat) (c : ContentRow) : ContentRow :=
  { c with isSent := true, status := ContentStatus.sent, sentAt := some now }

/-- The finalize update used both by the scheduler's zero-subscriber path
and by the worker's completion block:
db.update(content).set(is_sent true, status sent, sent_at now).where(eq(content.id, cid)).
The where-clause matches by id alone, with no condition on status. -/
def finalizeUpdate (db : DB) (cid now : Nat) : DB :=
  { db with contents := db.contents.map (fun c => if c.id == cid then finalizeSet now c else c) }

/-- The inner join of subscriptions with subscribers on
subscriptions.subscriber_id = subscribers.id, filtered by
subscriptions.topic_id = topicId and subscribers.is_active = true, as
issued both by the scheduler (fan-out snapshot) and by the worker's
completion block (live recount). -/
def joinActiveSubscriptions (db : DB) (topicId : Nat) : List (SubscriptionRow × SubscriberRow) :=
  db.subscriptions.flatMap (fun s =>
    db.subscribers.filterMap (fun u =>
      if s.subscriberId == u.id && s.topicId == topicId && u.isActive then some (s, u) else none))

/-- The data of one send-newsletter job added to the Bull queue. -/
structure EmailJob where
  contentId : Nat
  subscriberId : Nat
  subscriberEmail : String
  title : String
  body : String
deriving DecidableEq, Repr

/-- One iteration of the scheduler loop body of processPendingContent for
a discovered content item: claim update (skip when it returns no rows),
active-subscriber join, immediate finalize when the join is empty,
otherwise one queued job per joined subscriber. Returns the new database
and the jobs added to the queue. -/
def processContentItem (db : DB) (item : ContentRow) (now : Nat) : DB × List EmailJob :=
  let claimed := claimUpdate db item.id
  if claimed.2.length == 0 then (claimed.1, [])
  else
    let subscriptionData := joinActiveSubscriptions claimed.1 item.topicId
    if subscriptionData.length == 0 then
      (finalizeUpdate claimed.1 item.id now, [])
    else
      (claimed.1,
       subscriptionData.map (fun su =>
         { contentId := item.id, subscriberId := su.2.id, subscriberEmail := su.2.email,
           title := item.title.getD "Newsletter", body := item.body }))

/-- EMAILS_PER_SECOND with its default of 10 (src/services/queueProcessor.ts). -/
def EMAILS_PER_SECOND : Nat := 10

/-- DELAY_BETWEEN_EMAILS = 1000 / EMAILS_PER_SECOND (milliseconds). -/
def DELAY_BETWEEN_EMAILS : Nat := 1000 / EMAILS_PER_SECOND

/-- The completion-check gate of the worker:
Math.random() < 0.1 || job.attemptsMade === 0, with the random draw
given as a rational in [0, 1). -/
def shouldCheckCompletion (rand : ℚ) (attemptsMade : Nat) : Bool :=
  decide (rand < 1/10) || (attemptsMade == 0)

/-- The conflict key of the email_logs upserts: (content_id, subscriber_id). -/
def logKey (cid sid : Nat) (l : EmailLogRow) : Bool :=
  l.contentId == cid && l.subscriberId == sid

/-- The success-path upsert of the worker: insert a sent row, or on
conflict on (content_id, subscriber_id) set status sent, message_id,
sent_at. -/
def upsertLogSent (db : DB) (cid sid : Nat) (msgId : String) (now : Nat) : DB :=
  if db.emailLogs.any (logKey cid sid) then
    { db with emailLogs := db.emailLogs.map (fun l =>
        if logKey cid sid l then
          { l with status := EmailStatus.sent, messageId := some msgId, sentAt := some now }
        else l) }
  else
    { db with emailLogs := db.emailLogs ++
        [{ contentId := cid, subscriberId := sid, status := EmailStatus.sent,
           messageId := some msgId, errorMessage := none, sentAt := some now }] }

/-- The catch-block upsert of the worker: insert a failed row, or on
conflict on (content_id, subscriber_id) set status failed, error_message,
sent_at. The source runs this on every failed attempt before rethrowing. -/
def upsertLogFailed (db : DB) (cid sid : Nat) (errMsg : String) (now : Nat) : DB :=
  if db.emailLogs.any (logKey cid sid) then
    { db with emailLogs := db.emailLogs.map (fun l =>
        if logKey cid sid l then
          { l with status := EmailStatus.failed, errorMessage := some errMsg, sentAt := some now }
        else l) }
  else
    { db with emailLogs := db.emailLogs ++
        [{ contentId := cid, subscriberId := sid, status := EmailStatus.failed,
           messageId := none, errorMessage := some errMsg, sentAt := some now }] }

/-- The worker's select(count()) over email_logs where content_id = cid
and status = sent. Failed rows are not part of this count. -/
def sentCount (db : DB) (cid : Nat) : Nat :=
  (db.emailLogs.filter (fun l => l.contentId == cid && l.status == EmailStatus.sent)).length

/-- The length of the worker's live active-subscription join for a topic,
recomputed from the current subscriptions and subscribers tables at the
moment of the completion check. -/
def totalActiveSubscribers (db : DB) (topicId : Nat) : Nat :=
  (joinActiveSubscriptions db topicId).length

/-- The completion block of the worker: fetch the content row (limit 1),
recount sentCount and totalSubscribers, and when
sentCount > 0 && totalSubscribers > 0 && sentCount >= totalSubscribers
run the finalize update (which matches by id alone). -/
def completionCheck (db : DB) (cid now : Nat) : DB :=
  match (db.contents.filter (fun c => c.id == cid)).head? with
  | none => db
  | some item =>
    let sc := sentCount db cid
    let ts := totalActiveSubscribers db item.topicId
    if decide (0 < sc) && decide (0 < ts) && decide (ts ≤ sc) then
      finalizeUpdate db cid now
    else db

/-- Outcome of one run of the send-newsletter handler: a normal return
with the transport message id, or a rethrown error (which hands the job
back to Bull). -/
inductive JobOutcome
  | success (messageId : String)
  | thrown (message : String)
deriving DecidableEq, Repr

/-- Result of the outbound mail call of one attempt. -/
inductive MailResult
  | ok (messageId : String)
  | err (message : String)
deriving DecidableEq, Repr

/-- The per-job attempt context Bull hands to the handler. -/
structure JobCtx where
  attemptsMade : Nat
  attempts : Nat
deriving DecidableEq, Repr

/-- Result of one run of the handler over the embedded database. -/
structure HandlerResult where
  db : DB
  outcome : JobOutcome
  checkedCompletion : Bool
deriving DecidableEq, Repr

/-- One run of the send-newsletter handler body: on mail success, the
sent upsert followed by the completion block only when
shouldCheckCompletion holds; on mail failure, the failed upsert followed
by a rethrow. The rate-limit gate is modelled separately (rlSendTime). -/
def processJob (db : DB) (job : EmailJob) (ctx : JobCtx) (mail : MailResult) (rand : ℚ)
    (now : Nat) : HandlerResult :=
  match mail with
  | MailResult.ok msgId =>
    let db1 := upsertLogSent db job.contentId job.subscriberId msgId now
    let check := shouldCheckCompletion rand ctx.attemptsMade
    { db := if check then completionCheck db1 job.contentId now else db1,
      outcome := JobOutcome.success msgId,
      checkedCompletion := check }
  | MailResult.err m =>
    { db := upsertLogFailed db job.contentId job.subscriberId m now,
      outcome := JobOutcome.thrown m,
      checkedCompletion := false }

/-- Terminal fate of a job under Bull's retry loop. -/
inductive JobFinal
  | completed
  | failedTerminal
deriving DecidableEq, Repr

/-- Result of running a job to its terminal fate: how many attempts were
made, the final database, and the fate. -/
structure RunResult where
  attemptCount : Nat
  db : DB
  final : JobFinal
deriving DecidableEq, Repr

/-- Bull's retry loop as configured by the repository (attempts is the
total attempt budget; a thrown attempt is redelivered while
attemptsMade + 1 < attempts, exactly the handler's own willRetry
computation; afterwards the job is terminally failed and not
redelivered). The first argument is recursion fuel. -/
def runJobAux (job : EmailJob) (attempts : Nat) (mail : Nat → MailResult) (rand : Nat → ℚ)
    (times : Nat → Nat) : Nat → Nat → DB → RunResult
  | 0, _, db => { attemptCount := 0, db := db, final := JobFinal.failedTerminal }
  | fuel + 1, attemptsMade, db =>
    let res := processJob db job { attemptsMade := attemptsMade, attempts := attempts }
      (mail attemptsMade) (rand attemptsMade) (times attemptsMade)
    match res.outcome with
    | JobOutcome.success _ => { attemptCount := 1, db := res.db, final := JobFinal.completed }
    | JobOutcome.thrown _ =>
      if attemptsMade + 1 < attempts then
        let rest := runJobAux job attempts mail rand times fuel (attemptsMade + 1) res.db
        { attemptCount := rest.attemptCount + 1, db := rest.db, final := rest.final }
      else { attemptCount := 1, db := res.db, final := JobFinal.failedTerminal }

/-- Run a freshly enqueued job (attemptsMade = 0) to its terminal fate;
the attempt budget itself is enough fuel since each redelivery increases
attemptsMade. -/
def runJob (db : DB) (job : EmailJob) (attempts : Nat) (mail : Nat → MailResult)
    (rand : Nat → ℚ) (times : Nat → Nat) : RunResult :=
  runJobAux job attempts mail rand times attempts 0 db

/-- One worker's pass through RateLimiter.rateLimit, recorded as the
instant it entered (arrival, its Date.now()), the value of the shared
lastEmailTime field it read, and the instant its call completed (which is
also the value it stores back and the moment its send proceeds). -/
structure RLRun where
  arrival : Nat
  readLast : Nat
  sendTime : Nat
deriving DecidableEq, Repr

/-- The body of RateLimiter.rateLimit for one caller: when
now - lastEmailTime < DELAY_BETWEEN_EMAILS it sleeps the remainder and
then stores Date.now() = readLast + DELAY_BETWEEN_EMAILS; otherwise it
stores the arrival instant at once. -/
def rlSendTime (readLast arrival : Nat) : Nat :=
  if arrival - readLast < DELAY_BETWEEN_EMAILS then readLast + DELAY_BETWEEN_EMAILS else arrival

/-- Value of the shared lastEmailTime field (initialized to 0) at instant
t: the largest write time strictly below t, each completed rateLimit call
writing its sendTime value at that same instant. -/
def lastWriteBefore (runs : List RLRun) (t : Nat) : Nat :=
  runs.foldl (fun acc w => if w.sendTime < t then max acc w.sendTime else acc) 0

/-- A collection of concurrent rateLimit executions is a valid
interleaving of the source's unsynchronized read-then-write when each
caller read the latest value of the shared field written before its
arrival and completed per the code body — nothing prevents a caller from
reading while an earlier caller is still sleeping before its write. -/
def rlValidTrace (runs : List RLRun) : Prop :=
  ∀ w ∈ runs, w.readLast = lastWriteBefore runs w.arrival ∧
    w.sendTime = rlSendTime w.readLast w.arrival

instance rlValidTraceDecidable (runs : List RLRun) : Decidable (rlValidTrace runs) := by
  unfold rlValidTrace
  infer_instance

/-- Fixture: a due, pending content row for topic 1. -/
def rowPending : ContentRow :=
  { id := 1, topicId := 1, title := some "T", body := "B", scheduledTime := 1000,
    isSent := false, status := ContentStatus.pending, sentAt := none }

/-- Fixture: the same content row after a claim. -/
def rowProcessing : ContentRow :=
  { rowPending with status := ContentStatus.processing }

/-- Fixture: a content row already finalized as sent. -/
def rowSent : ContentRow :=
  { id := 2, topicId := 1, title := some "T2", body := "B2", scheduledTime := 900,
    isSent := true, status := ContentStatus.sent, sentAt := some 950 }

/-- Fixture: a second due pending row, older than rowPending but listed
after it in the table. -/
def rowEarlier : ContentRow :=
  { id := 2, topicId := 1, title := none, body := "B2", scheduledTime := 500,
    isSent := false, status := ContentStatus.pending, sentAt := none }

/-- Fixture subscribers. -/
def subAlice : SubscriberRow := { id := 1, email := "alice", isActive := true }

/-- Fixture subscriber two. -/
def subBob : SubscriberRow := { id := 2, email := "bob", isActive := true }

/-- Fixture subscriber three, added after fan-out in the C8 scenario. -/
def subCarol : SubscriberRow := { id := 3, email := "carol", isActive := true }

/-- Fixture: delivery log row, subscriber 1 of content 1 sent. -/
def logSentAlice : EmailLogRow :=
  { contentId := 1, subscriberId := 1, status := EmailStatus.sent, messageId := some "m1",
    errorMessage := none, sentAt := some 2000 }

/-- Fixture: delivery log row, subscriber 2 of content 1 terminally failed. -/
def logFailedBob : EmailLogRow :=
  { contentId := 1, subscriberId := 2, status := EmailStatus.failed, messageId := none,
    errorMessage := some "boom", sentAt := some 2100 }

/-- Fixture database: one pending content row, nothing else. -/
def dbOnePending : DB :=
  { contents := [rowPending], subscribers := [], subscriptions := [], emailLogs := [] }

/-- Fixture database: one already-sent content row. -/
def dbOneSent : DB :=
  { contents := [rowSent], subscribers := [], subscriptions := [], emailLogs := [] }

/-- Fixture database: two due pending rows with the newer-scheduled one
listed first. -/
def dbTwoDue : DB :=
  { contents := [rowPending, rowEarlier], subscribers := [], subscriptions := [], emailLogs := [] }

/-- Fixture database: content 1 processing, two active subscribers of
topic 1, both delivery pairs resolved (one sent, one failed). -/
def dbResolvedPair : DB :=
  { contents := [rowProcessing], subscribers := [subAlice, subBob],
    subscriptions := [{ subscriberId := 1, topicId := 1 }, { subscriberId := 2, topicId := 1 }],
    emailLogs := [logSentAlice, logFailedBob] }

/-- Fixture database: like dbResolvedPair but subscriber 2 still pending
(only the sent row for subscriber 1 exists). -/
def dbLastPending : DB :=
  { dbResolvedPair with emailLogs := [logSentAlice] }

/-- Fixture job: the delivery task of content 1 to subscriber 2. -/
def jobBob : EmailJob :=
  { contentId := 1, subscriberId := 2, subscriberEmail := "bob", title := "T", body := "B" }

/-- Fixture database at fan-out time in the C8 scenario: one active
subscriber of topic 1, content 1 processing, no log rows yet. -/
def dbFanoutOne : DB :=
  { contents := [rowProcessing], subscribers := [subAlice],
    subscriptions := [{ subscriberId := 1, topicId := 1 }], emailLogs := [] }

/-- Fixture database after the fan-out of dbFanoutOne: the single
snapshot delivery resolved sent, and a new active subscription for
subscriber 3 added to topic 1 after fan-out. -/
def dbAfterChange : DB :=
  { contents := [rowProcessing], subscribers := [subAlice, subCarol],
    subscriptions := [{ subscriberId := 1, topicId := 1 }, { subscriberId := 3, topicId := 1 }],
    emailLogs := [logSentAlice] }

/-- Fixture interleaving of eleven concurrent RateLimiter.rateLimit
calls: one caller enters at t = 1000000 with the field still 0 and sends
at once; ten more enter during the next ten milliseconds, all read the
stale value 1000000 while none of them has written yet, and all complete
(and send) together at t = 1000100. -/
def rlTrace : List RLRun :=
  { arrival := 1000000, readLast := 0, sendTime := 1000000 } ::
    (List.range 10).map (fun i =>
      { arrival := 1000001 + i, readLast := 1000000, sendTime := 1000100 })

/-- Every row of the finalize update that carries the targeted id has the
finalized field values. -/
theorem finalizeUpdate_mem (db : DB) (cid now : Nat) :
    ∀ c ∈ (finalizeUpdate db cid now).contents, c.id = cid →
      c.status = ContentStatus.sent ∧ c.isSent = true ∧ c.sentAt = some now := by
  intro c hc hid
  simp only [finalizeUpdate, List.mem_map] at hc
  obtain ⟨a, -, rfl⟩ := hc
  by_cases h : (a.id == cid) = true
  · simp [h, finalizeSet]
  · rw [if_neg h] at hid
    exact absurd hid (by simpa using h)

/-- After the failed upsert there is a row for the pair. -/
theorem upsertLogFailed_any (db : DB) (cid sid : Nat) (m : String) (now : Nat) :
    (upsertLogFailed db cid sid m now).emailLogs.any (logKey cid sid) = true := by
  unfold upsertLogFailed
  by_cases h : db.emailLogs.any (logKey cid sid) = true
  · rw [if_pos h]
    rcases List.any_eq_true.mp h with ⟨x, hx, hkey⟩
    refine List.any_eq_true.mpr
      ⟨if logKey cid sid x then
          { x with status := EmailStatus.failed, errorMessage := some m, sentAt := some now }
        else x, List.mem_map_of_mem _ hx, ?_⟩
    rw [if_pos hkey]
    simpa [logKey] using hkey
  · rw [if_neg h]
    refine List.any_eq_true.mpr ⟨_, List.mem_append_right _ (List.mem_singleton_self _), ?_⟩
    simp [logKey]

/-- Every row for the pair has status failed after the failed upsert. -/
theorem upsertLogFailed_status (db : DB) (cid sid : Nat) (m : String) (now : Nat) :
    ∀ l ∈ (upsertLogFailed db cid sid m now).emailLogs, logKey cid sid l = true →
      l.status = EmailStatus.failed := by
  intro l hl hkey
  unfold upsertLogFailed at hl
  by_cases h : db.emailLogs.any (logKey cid sid) = true
  · rw [if_pos h] at hl
    simp only [List.mem_map] at hl
    obtain ⟨x, -, rfl⟩ := hl
    by_cases hx : (logKey cid sid x) = true
    · simp [hx]
    · rw [if_neg hx] at hkey
      exact absurd hkey hx
  · rw [if_neg h] at hl
    simp only [List.mem_append, List.mem_singleton] at hl
    rcases hl with hin | rfl
    · have hall := List.any_eq_false.mp (Bool.eq_false_iff.mpr h)
      exact absurd hkey (by simpa using hall l hin)
    · rfl

/-- Any run of the retry loop with at least one unit of fuel performs at
least one attempt. -/
theorem runJobAux_pos (job : EmailJob) (attempts : Nat) (mail : Nat → MailResult)
    (rand : Nat → ℚ) (times : Nat → Nat) (fuel a : Nat) (db : DB) :
    1 ≤ (runJobAux job attempts mail rand times (fuel + 1) a db).attemptCount := by
  simp only [runJobAux]
  split
  · simp
  · split
    · simp
    · simp

/-- One step of the retry loop on a thrown non-final attempt: the failed
upsert happens and the loop recurses on the next attempt. -/
theorem runJobAux_thrown_step (job : EmailJob) (attempts : Nat) (mail : Nat → MailResult)
    (rand : Nat → ℚ) (times : Nat → Nat) (fuel a : Nat) (db : DB) (m : String)
    (hm : mail a = MailResult.err m) (hnf : a + 1 < attempts) :
    runJobAux job attempts mail rand times (fuel + 1) a db =
      { attemptCount := (runJobAux job attempts mail rand times fuel (a + 1)
          (upsertLogFailed db job.contentId job.subscriberId m (times a))).attemptCount + 1,
        db := (runJobAux job attempts mail rand times fuel (a + 1)
          (upsertLogFailed db job.contentId job.subscriberId m (times a))).db,
        final := (runJobAux job attempts mail rand times fuel (a + 1)
          (upsertLogFailed db job.contentId job.subscriberId m (times a))).final } := by
  simp [runJobAux, processJob, hm, hnf]

/-- C3: the claim in processPendingContent is not a conditional update on
status = pending. On a table with one pending row, the first claim
returns one row and sets it processing; a second claim of the same
content — the serialization of a concurrent duplicate claim attempt —
also matches by id alone and returns one row instead of zero, so both
claimants would proceed to fan out. -/
theorem claim_update_unconditional :
    (claimUpdate dbOnePending 1).2.length = 1 ∧
    ((claimUpdate dbOnePending 1).1.contents.map (fun c => c.status)) =
      [ContentStatus.processing] ∧
    (claimUpdate (claimUpdate dbOnePending 1).1 1).2.length = 1 := by
  decide

/-- C4: neither state-machine write carries a status guard. The finalize
update applied to a row whose status is pending (not processing)
succeeds and marks it sent, and the claim update applied to a row whose
status is already sent moves it back to processing while isSent stays
true — a backward transition that breaks the isSent iff sent invariant. -/
theorem finalize_and_claim_without_status_guard :
    rowPending.status = ContentStatus.pending ∧
    ((finalizeUpdate dbOnePending 1 42).contents.map (fun c => (c.status, c.isSent, c.sentAt))) =
      [(ContentStatus.sent, true, some 42)] ∧
    rowSent.status = ContentStatus.sent ∧ rowSent.isSent = true ∧
    ((claimUpdate dbOneSent 2).1.contents.map (fun c => (c.status, c.isSent))) =
      [(ContentStatus.processing, true)] := by
  decide

/-- C5: the rateLimit gate is an unsynchronized read-then-write, not a
mutex-guarded critical section: rlTrace is a valid interleaving of eleven
concurrent callers under the code's semantics, yet it contains eleven
sends inside the one-second window starting at t = 1000000 — more than
EMAILS_PER_SECOND times one second of elapsed time. -/
theorem rate_limit_gate_not_atomic :
    rlValidTrace rlTrace ∧
    (rlTrace.filter (fun w =>
      decide (1000000 ≤ w.sendTime) && decide (w.sendTime < 1000000 + 1000))).length = 11 ∧
    EMAILS_PER_SECOND * 1 < 11 := by
  decide

/-- C9 counterexample: the discovery query has no ordering clause. With
two due pending rows stored newer-first, findDueContent returns the
newer-scheduled row before the older one, so the batch is not ordered by
scheduledTime ascending. -/
theorem discovery_query_unordered :
    findDueContent dbTwoDue 5000 = [rowPending, rowEarlier] ∧
    rowEarlier.scheduledTime < rowPending.scheduledTime := by
  decide

/-- C9 amended: each discovery query returns at most 10 rows, every
returned row satisfies scheduledTime <= now, isSent = false and
status = pending, and the batch is a sublist of the table in its
enumeration order — but it is not sorted by scheduledTime. -/
theorem discovery_filter_limit_table_order (db : DB) (now : Nat) :
    (findDueContent db now).length ≤ 10 ∧
    (∀ c ∈ findDueContent db now,
      c.scheduledTime ≤ now ∧ c.isSent = false ∧ c.status = ContentStatus.pending) ∧
    (findDueContent db now).Sublist db.contents := by
  refine ⟨?_, ?_, ?_⟩
  · exact List.length_take_le 10 (db.contents.filter (isDue now))
  · intro c hc
    have hmem : c ∈ db.contents.filter (isDue now) := List.mem_of_mem_take hc
    have hdue := List.of_mem_filter hmem
    simp only [isDue, Bool.and_eq_true, decide_eq_true_eq, beq_iff_eq] at hdue
    exact ⟨hdue.1.1, hdue.1.2, hdue.2⟩
  · exact (List.take_sublist _ _).trans (List.filter_sublist _)

/-- C9 witness: the amended discovery theorem applied to the concrete
two-row table at now = 5000. -/
theorem discovery_filter_limit_table_order_case :
    (findDueContent dbTwoDue 5000).length ≤ 10 ∧
    (rowEarlier.scheduledTime ≤ 5000 ∧ rowEarlier.isSent = false ∧
      rowEarlier.status = ContentStatus.pending) ∧
    (findDueContent dbTwoDue 5000).Sublist dbTwoDue.contents :=
  ⟨(discovery_filter_limit_table_order dbTwoDue 5000).1,
   (discovery_filter_limit_table_order dbTwoDue 5000).2.1 rowEarlier (by decide),
   (discovery_filter_limit_table_order dbTwoDue 5000).2.2⟩

/-- C10: a claimed content item whose active-subscription join is empty
is finalized at once — every content row with its id ends with
status = sent, isSent = true, sentAt = now — with no job enqueued and the
email_logs table untouched. -/
theorem zero_subscriber_immediate_finalize (db : DB) (item : ContentRow) (now : Nat)
    (hclaim : (claimUpdate db item.id).2 ≠ [])
    (hempty : joinActiveSubscriptions db item.topicId = []) :
    (processContentItem db item now).2 = [] ∧
    (processContentItem db item now).1.emailLogs = db.emailLogs ∧
    ∀ c ∈ (processContentItem db item now).1.contents, c.id = item.id →
      c.status = ContentStatus.sent ∧ c.isSent = true ∧ c.sentAt = some now := by
  have h1 : ((claimUpdate db item.id).2.length == 0) = false := by
    simp [List.length_eq_zero, hclaim]
  have h2 : joinActiveSubscriptions (claimUpdate db item.id).1 item.topicId = [] := hempty
  have hres : processContentItem db item now =
      (finalizeUpdate (claimUpdate db item.id).1 item.id now, []) := by
    simp [processContentItem, h1, h2]
  rw [hres]
  exact ⟨rfl, rfl, finalizeUpdate_mem (claimUpdate db item.id).1 item.id now⟩

/-- C10 witness: the zero-subscriber finalize theorem applied to a
concrete one-row database with no subscriptions. -/
theorem zero_subscriber_immediate_finalize_case :
    (processContentItem dbOnePending rowPending 7).2 = [] ∧
    (processContentItem dbOnePending rowPending 7).1.emailLogs = dbOnePending.emailLogs :=
  ⟨(zero_subscriber_immediate_finalize dbOnePending rowPending 7 (by decide) (by decide)).1,
   (zero_subscriber_immediate_finalize dbOnePending rowPending 7 (by decide) (by decide)).2.1⟩

/-- C1: the completion evaluation is sampled, not deterministic. With the
last pending pair of content 1 resolving sent on a retry attempt
(attemptsMade = 1) and a random draw of one half, the handler writes the
terminal sent row — both pairs are now resolved — yet
shouldCheckCompletion is false, no completion evaluation runs and the
content stays processing; and a terminal failed attempt (the catch path)
never evaluates completion at all. -/
theorem completion_evaluation_is_sampled :
    shouldCheckCompletion (1/2) 1 = false ∧
    (processJob dbLastPending jobBob { attemptsMade := 1, attempts := 3 }
      (MailResult.ok "m2") (1/2) 3000).checkedCompletion = false ∧
    ((processJob dbLastPending jobBob { attemptsMade := 1, attempts := 3 }
      (MailResult.ok "m2") (1/2) 3000).db.emailLogs.map (fun l => l.status)) =
      [EmailStatus.sent, EmailStatus.sent] ∧
    ((processJob dbLastPending jobBob { attemptsMade := 1, attempts := 3 }
      (MailResult.ok "m2") (1/2) 3000).db.contents.map (fun c => c.status)) =
      [ContentStatus.processing] ∧
    (processJob dbResolvedPair jobBob { attemptsMade := 2, attempts := 3 }
      (MailResult.err "boom") (1/2) 3100).checkedCompletion = false := by
  refine ⟨by norm_num [shouldCheckCompletion], ?_, ?_, ?_, rfl⟩
  · simp only [processJob]
    norm_num [shouldCheckCompletion]
  · simp only [processJob]
    norm_num [shouldCheckCompletion]
    decide
  · simp only [processJob]
    norm_num [shouldCheckCompletion]
    decide

/-- C2 counterexample: content 1 has two active subscribers and both
pairs are terminally resolved, one sent and one failed; the completion
evaluation compares sentCount = 1 against 2 and does not finalize — the
content keeps status processing instead of becoming sent. -/
theorem resolved_with_failure_not_finalized :
    totalActiveSubscribers dbResolvedPair 1 = 2 ∧
    (dbResolvedPair.emailLogs.filter (fun l => l.contentId == 1 &&
      (l.status == EmailStatus.sent || l.status == EmailStatus.failed))).length = 2 ∧
    sentCount dbResolvedPair 1 = 1 ∧
    ((completionCheck dbResolvedPair 1 9999).contents.map (fun c => (c.status, c.isSent))) =
      [(ContentStatus.processing, false)] := by
  decide

/-- C2 amended: the count the completion evaluation compares against the
subscriber total includes only rows with status sent — appending a failed
row leaves it unchanged — and while it is below the live subscriber total
the evaluation leaves the database unchanged, so a fan-out with a
terminally failed subscriber is never finalized. -/
theorem resolved_count_excludes_failed (db : DB) (cid now : Nat) (l : EmailLogRow)
    (item : ContentRow) (hl : l.status = EmailStatus.failed)
    (hhead : (db.contents.filter (fun c => c.id == cid)).head? = some item)
    (hlt : sentCount db cid < totalActiveSubscribers db item.topicId) :
    sentCount { db with emailLogs := db.emailLogs ++ [l] } cid = sentCount db cid ∧
    completionCheck db cid now = db := by
  constructor
  · simp [sentCount, List.filter_append, hl]
  · have hn : ¬ (totalActiveSubscribers db item.topicId ≤ sentCount db cid) :=
      Nat.not_le.mpr hlt
    simp [completionCheck, hhead, hn]

/-- C2 witness: the amended completion theorem applied to the concrete
resolved-pair database. -/
theorem resolved_count_excludes_failed_case :
    sentCount { dbResolvedPair with emailLogs := dbResolvedPair.emailLogs ++ [logFailedBob] } 1 =
      sentCount dbResolvedPair 1 ∧
    completionCheck dbResolvedPair 1 7777 = dbResolvedPair :=
  resolved_count_excludes_failed dbResolvedPair 1 7777 logFailedBob rowProcessing
    (by decide) (by decide) (by decide)

/-- C6 counterexample: with the configured budget attempts = 3 and a
mailer erroring on every attempt, the job is attempted exactly 3 times —
not 1 + 3 = 4 as the claim states. -/
theorem retry_budget_is_three_not_four :
    (runJob dbLastPending jobBob 3 (fun _ => MailResult.err "boom") (fun _ => 0)
      (fun i => 3000 + i)).attemptCount = 3 ∧
    (3 : Nat) ≠ 1 + 3 := by
  decide

/-- C6 amended: with the configured total budget attempts = 3 and a
mailer erroring on every attempt, the retry loop performs exactly 3
attempts (one initial delivery plus two redeliveries, per the handler's
willRetry bound attemptsMade + 1 < attempts), ends terminally failed with
no further redelivery, and leaves the pair's DeliveryLog row with status
failed. -/
theorem retry_exhaustion_exact_attempts (db : DB) (job : EmailJob) (mail : Nat → MailResult)
    (rand : Nat → ℚ) (times : Nat → Nat) (hfail : ∀ i, ∃ m, mail i = MailResult.err m) :
    (runJob db job 3 mail rand times).attemptCount = 3 ∧
    (runJob db job 3 mail rand times).final = JobFinal.failedTerminal ∧
    (runJob db job 3 mail rand times).db.emailLogs.any
      (logKey job.contentId job.subscriberId) = true ∧
    ∀ l ∈ (runJob db job 3 mail rand times).db.emailLogs,
      logKey job.contentId job.subscriberId l = true → l.status = EmailStatus.failed := by
  obtain ⟨m0, h0⟩ := hfail 0
  obtain ⟨m1, h1⟩ := hfail 1
  obtain ⟨m2, h2⟩ := hfail 2
  have hrun : runJob db job 3 mail rand times =
      { attemptCount := 3,
        db := upsertLogFailed (upsertLogFailed
            (upsertLogFailed db job.contentId job.subscriberId m0 (times 0))
            job.contentId job.subscriberId m1 (times 1))
          job.contentId job.subscriberId m2 (times 2),
        final := JobFinal.failedTerminal } := by
    simp [runJob, runJobAux, processJob, h0, h1, h2]
  rw [hrun]
  exact ⟨rfl, rfl, upsertLogFailed_any _ _ _ _ _, upsertLogFailed_status _ _ _ _ _⟩

/-- C6 witness: the retry-exhaustion theorem applied to the concrete
database with an always-failing mailer. -/
theorem retry_exhaustion_exact_attempts_case :
    (runJob dbLastPending jobBob 3 (fun _ => MailResult.err "x") (fun _ => 0)
      (fun _ => 9)).attemptCount = 3 ∧
    (runJob dbLastPending jobBob 3 (fun _ => MailResult.err "x") (fun _ => 0)
      (fun _ => 9)).final = JobFinal.failedTerminal :=
  ⟨(retry_exhaustion_exact_attempts dbLastPending jobBob (fun _ => MailResult.err "x")
      (fun _ => 0) (fun _ => 9) (fun _ => ⟨"x", rfl⟩)).1,
   (retry_exhaustion_exact_attempts dbLastPending jobBob (fun _ => MailResult.err "x")
      (fun _ => 0) (fun _ => 9) (fun _ => ⟨"x", rfl⟩)).2.1⟩

/-- C7 counterexample: attempt 1 of 3 is not final, its mail call errors,
and the handler still upserts the pair's DeliveryLog row to the terminal
status failed before rethrowing for redelivery. -/
theorem nonfinal_failure_writes_terminal :
    (0 + 1 < 3) ∧
    ((processJob dbLastPending jobBob { attemptsMade := 0, attempts := 3 }
      (MailResult.err "boom") 0 2500).db.emailLogs.map
        (fun l => (l.contentId, l.subscriberId, l.status))) =
      [(1, 1, EmailStatus.sent), (1, 2, EmailStatus.failed)] ∧
    (processJob dbLastPending jobBob { attemptsMade := 0, attempts := 3 }
      (MailResult.err "boom") 0 2500).outcome = JobOutcome.thrown "boom" := by
  decide

/-- C7 amended: on a failed attempt, final or not, the handler upserts
the pair's DeliveryLog row to the terminal status failed and rethrows;
when the attempt is non-final the rethrow leads to a redelivery — the run
from that attempt performs at least one more attempt — so a later attempt
does follow a row that is already terminal. -/
theorem nonfinal_failure_terminal_write_then_retry (db : DB) (job : EmailJob)
    (a attempts fuel : Nat) (mail : Nat → MailResult) (rand : Nat → ℚ) (times : Nat → Nat)
    (m : String) (hm : mail a = MailResult.err m) (hnf : a + 1 < attempts) :
    (processJob db job { attemptsMade := a, attempts := attempts }
      (mail a) (rand a) (times a)).outcome = JobOutcome.thrown m ∧
    (processJob db job { attemptsMade := a, attempts := attempts }
      (mail a) (rand a) (times a)).db.emailLogs.any
        (logKey job.contentId job.subscriberId) = true ∧
    (∀ l ∈ (processJob db job { attemptsMade := a, attempts := attempts }
      (mail a) (rand a) (times a)).db.emailLogs,
        logKey job.contentId job.subscriberId l = true → l.status = EmailStatus.failed) ∧
    2 ≤ (runJobAux job attempts mail rand times (fuel + 2) a db).attemptCount := by
  refine ⟨by simp [processJob, hm], ?_, ?_, ?_⟩
  · simp only [processJob, hm]
    exact upsertLogFailed_any _ _ _ _ _
  · simp only [processJob, hm]
    exact upsertLogFailed_status _ _ _ _ _
  · have hpos := runJobAux_pos job attempts mail rand times fuel (a + 1)
      (upsertLogFailed db job.contentId job.subscriberId m (times a))
    rw [show (fuel + 2 : Nat) = fuel + 1 + 1 from rfl,
      runJobAux_thrown_step job attempts mail rand times (fuel + 1) a db m hm hnf]
    dsimp only
    omega

/-- C7 witness: the terminal-write-then-retry theorem applied at a
concrete non-final failing attempt. -/
theorem nonfinal_failure_terminal_write_then_retry_case :
    (processJob dbLastPending jobBob { attemptsMade := 0, attempts := 3 }
      (MailResult.err "boom") 0 2500).outcome = JobOutcome.thrown "boom" ∧
    2 ≤ (runJobAux jobBob 3 (fun _ => MailResult.err "boom") (fun _ => 0) (fun _ => 2500)
      2 0 dbLastPending).attemptCount :=
  ⟨(nonfinal_failure_terminal_write_then_retry dbLastPending jobBob 0 3 0
      (fun _ => MailResult.err "boom") (fun _ => 0) (fun _ => 2500) "boom" rfl (by decide)).1,
   (nonfinal_failure_terminal_write_then_retry dbLastPending jobBob 0 3 0
      (fun _ => MailResult.err "boom") (fun _ => 0) (fun _ => 2500) "boom" rfl (by decide)).2.2.2⟩

/-- C8 counterexample: at fan-out time topic 1 has one active subscriber
(the snapshot size is 1); after fan-out a second active subscription is
added; the completion evaluation then computes an expected count of 2 —
not the snapshot count 1 — and, although every snapshot pair is resolved
sent, does not finalize the content. -/
theorem expected_count_not_snapshot :
    totalActiveSubscribers dbFanoutOne 1 = 1 ∧
    sentCount dbAfterChange 1 = 1 ∧
    totalActiveSubscribers dbAfterChange 1 = 2 ∧
    ((completionCheck dbAfterChange 1 4000).contents.map (fun c => c.status)) =
      [ContentStatus.processing] := by
  decide

/-- C8 amended: the expected count is recomputed from the live
subscription join at evaluation time, not from a fan-out snapshot: adding
a subscription row for the topic that matches an existing active
subscriber strictly increases totalActiveSubscribers. -/
theorem expected_count_is_live (db : DB) (t : Nat) (s : SubscriptionRow) (u : SubscriberRow)
    (hs : s.topicId = t) (hu : u ∈ db.subscribers) (hid : s.subscriberId = u.id)
    (hact : u.isActive = true) :
    totalActiveSubscribers db t <
      totalActiveSubscribers { db with subscriptions := db.subscriptions ++ [s] } t := by
  have hjoin : joinActiveSubscriptions { db with subscriptions := db.subscriptions ++ [s] } t =
      joinActiveSubscriptions db t ++
        db.subscribers.filterMap (fun v =>
          if s.subscriberId == v.id && s.topicId == t && v.isActive then some (s, v) else none) := by
    simp [joinActiveSubscriptions]
  have hmem : (s, u) ∈ db.subscribers.filterMap (fun v =>
      if s.subscriberId == v.id && s.topicId == t && v.isActive then some (s, v) else none) := by
    refine List.mem_filterMap.mpr ⟨u, hu, ?_⟩
    simp [hid, hs, hact]
  have hpos := List.length_pos_of_mem hmem
  unfold totalActiveSubscribers
  rw [hjoin, List.length_append]
  omega

/-- C8 witness: the live-recount theorem applied to the concrete fan-out
database, duplicating the active subscription of subscriber 1. -/
theorem expected_count_is_live_case :
    totalActiveSubscribers dbFanoutOne 1 <
      totalActiveSubscribers { dbFanoutOne with
        subscriptions := dbFanoutOne.subscriptions ++ [{ subscriberId := 1, topicId := 1 }] } 1 :=
  expected_count_is_live dbFanoutOne 1 { subscriberId := 1, topicId := 1 } subAlice
    rfl (by decide) rfl rfl
